import Mathlib

/-!
Verification of the Breezart Home Assistant integration's protocol client,
poll coordinator and optimistic-overlay layer.

The Python source (`custom_components/breezart/coordinator.py`,
`climate.py`, `const.py`) is shallowly embedded here: pure helpers become
Lean functions, fallible code returns `Except`/`Option`, and the
coordinator tick and climate-entity state are modelled by explicit state
passing.  Python exceptions are modelled by the inductive `PyError`,
whose `isinstance` relation against the built-in exception classes caught
by the coordinator follows Python's documented exception hierarchy
(`PermissionError`, `ConnectionError` and `TimeoutError` are subclasses
of `OSError`).
-/

set_option maxRecDepth 8000

deriving instance DecidableEq for Except

namespace Breezart

/-! ### Protocol codec (`_dec_to_hex`, `_hex_to_dec`, `_hex_to_dec_sign`,
`_parse_bits` from `coordinator.py`) -/

/-- Lowercase hex digit character for `n < 16`, matching Python
`format(value, "x")` which emits lowercase digits. -/
def hexDigitChar (n : Nat) : Char :=
  if n < 10 then Char.ofNat (48 + n) else Char.ofNat (87 + n)

/-- Value of one hex digit character, as accepted by Python
`int(s, 16)` (both cases accepted; the model restricts to plain digit
strings, without sign/whitespace/underscore forms). -/
def hexVal? (c : Char) : Option Nat :=
  if 48 ≤ c.toNat ∧ c.toNat ≤ 57 then some (c.toNat - 48)
  else if 97 ≤ c.toNat ∧ c.toNat ≤ 102 then some (c.toNat - 87)
  else if 65 ≤ c.toNat ∧ c.toNat ≤ 70 then some (c.toNat - 55)
  else none

/-- Little-endian hex digits of `n`, with explicit fuel (structural
recursion, so the kernel can evaluate it); `fuel ≥ n` always suffices
since `n / 16 < n` for `n ≠ 0`. -/
def natToHexRevAux : Nat → Nat → List Char
  | 0, _ => []
  | fuel + 1, n =>
    if n = 0 then [] else hexDigitChar (n % 16) :: natToHexRevAux fuel (n / 16)

/-- Little-endian hex digits of `n` (`n = 0` gives `[]`). -/
def natToHexRev (n : Nat) : List Char := natToHexRevAux n n

/-- `format(n, "x")`: lowercase hex, no padding, `0 ↦ "0"`. -/
def decToHexNat (n : Nat) : String :=
  if n = 0 then "0" else String.mk (natToHexRev n).reverse

/-- `_dec_to_hex` from `coordinator.py`: rejects values outside
`0..65535` (Python raises `ValueError`, modelled as `none`), otherwise
formats as lowercase unpadded hex. -/
def dec_to_hex (value : Int) : Option String :=
  if value < 0 ∨ 65535 < value then none else some (decToHexNat value.toNat)

/-- Accumulator pass of hex parsing (`int(s, 16)` on plain digits). -/
def parseHexCore : List Char → Nat → Option Nat
  | [], acc => some acc
  | c :: cs, acc =>
    match hexVal? c with
    | some d => parseHexCore cs (acc * 16 + d)
    | none => none

/-- `_hex_to_dec` from `coordinator.py`: `int(hex_str, 16)`, unsigned;
`none` models the `ValueError` raised on non-hex input. -/
def hex_to_dec (s : String) : Option Nat :=
  if s.data.isEmpty then none else parseHexCore s.data 0

/-- `_hex_to_dec_sign` from `coordinator.py`: parse as unsigned, then
subtract `0x10000` when bit 15 is set. -/
def hex_to_dec_sign (s : String) : Option Int :=
  (hex_to_dec s).map (fun val : Nat =>
    if val &&& 0x8000 ≠ 0 then (val : Int) - 0x10000 else (val : Int))

/-- Unsigned integer formed by the inclusive bit range
`fromBit..toBit` of `n`.  This is the value computed by `_parse_bits`'s
string slicing `format(num, "016b")[::-1][from: to+1][::-1]` for every
call site in the source (all of which satisfy `fromBit ≤ toBit ≤ 15`):
the reversed binary string places bit `i` at index `i`, so the slice
selects exactly bits `fromBit..toBit`. -/
def bits_val (n fromBit toBit : Nat) : Nat :=
  (n >>> fromBit) % 2 ^ (toBit - fromBit + 1)

/-- Word value seen by `_parse_bits`: the literal token `"0"`
short-circuits to `0`; any other token is parsed as hex. -/
def word_val (s : String) : Option Nat :=
  if s = "0" then some 0 else hex_to_dec s

/-- `_parse_bits` from `coordinator.py` on a hex token: the `"0"` token
short-circuits to `0` for any range, otherwise the token is parsed as
hex and the bit range extracted; `none` models the `ValueError` on
non-hex input. -/
def parse_bits (hexStr : String) (fromBit toBit : Nat) : Option Nat :=
  (word_val hexStr).map (fun n => bits_val n fromBit toBit)

/-! ### Codec lemmas -/

theorem hexVal_hexDigitChar {d : Nat} (h : d < 16) :
    hexVal? (hexDigitChar d) = some d := by
  interval_cases d <;> decide

theorem parseHexCore_append (l₁ l₂ : List Char) (acc : Nat) :
    parseHexCore (l₁ ++ l₂) acc =
      (parseHexCore l₁ acc).bind (fun a => parseHexCore l₂ a) := by
  induction l₁ generalizing acc with
  | nil => rfl
  | cons c cs ih =>
    simp only [List.cons_append, parseHexCore]
    cases hexVal? c with
    | none => rfl
    | some d => simpa using ih (acc * 16 + d)

theorem natToHexRevAux_parse (n : Nat) :
    ∀ fuel acc : Nat, n ≤ fuel →
      parseHexCore (natToHexRevAux fuel n).reverse acc =
        some (acc * 16 ^ (natToHexRevAux fuel n).length + n) := by
  induction n using Nat.strongRecOn with
  | ind n ih =>
    intro fuel acc hfuel
    by_cases h : n = 0
    · subst h
      cases fuel with
      | zero => simp [natToHexRevAux, parseHexCore]
      | succ g => simp [natToHexRevAux, parseHexCore]
    · cases fuel with
      | zero => omega
      | succ g =>
        rw [natToHexRevAux, if_neg h, List.reverse_cons, parseHexCore_append]
        have hlt : n / 16 < n := Nat.div_lt_self (Nat.pos_of_ne_zero h) (by decide)
        rw [ih (n / 16) hlt g acc (by omega)]
        simp only [Option.bind_some, parseHexCore,
          hexVal_hexDigitChar (Nat.mod_lt n (by decide))]
        have hdm : 16 * (n / 16) + n % 16 = n := Nat.div_add_mod n 16
        have : (acc * 16 ^ (natToHexRevAux g (n / 16)).length + n / 16) * 16 + n % 16 =
            acc * 16 ^ ((natToHexRevAux g (n / 16)).length + 1) + n := by
          calc (acc * 16 ^ (natToHexRevAux g (n / 16)).length + n / 16) * 16 + n % 16
              = acc * (16 ^ (natToHexRevAux g (n / 16)).length * 16) +
                  (16 * (n / 16) + n % 16) := by ring
            _ = acc * 16 ^ ((natToHexRevAux g (n / 16)).length + 1) + n := by
                rw [hdm, pow_succ]
        simp [this, List.length_cons]

theorem parseHexCore_natToHexRev (n acc : Nat) :
    parseHexCore (natToHexRev n).reverse acc =
      some (acc * 16 ^ (natToHexRev n).length + n) :=
  natToHexRevAux_parse n n acc le_rfl

theorem natToHexRev_ne_nil {n : Nat} (h : n ≠ 0) : natToHexRev n ≠ [] := by
  rw [natToHexRev]
  cases n with
  | zero => exact absurd rfl h
  | succ m => simp [natToHexRevAux, h]

/-- Round trip: decoding the lowercase unpadded hex encoding of any
natural number recovers it. -/
theorem hex_to_dec_decToHexNat (n : Nat) :
    hex_to_dec (decToHexNat n) = some n := by
  by_cases h : n = 0
  · subst h; decide
  · rw [decToHexNat, if_neg h, hex_to_dec]
    have hne : (natToHexRev n).reverse ≠ [] := by
      simpa using natToHexRev_ne_nil h
    rw [if_neg (by simpa [List.isEmpty_iff] using hne)]
    simpa using parseHexCore_natToHexRev n 0

theorem decToHexNat_eq_zero_str {n : Nat} (h : decToHexNat n = "0") :
    n = 0 := by
  have h1 : hex_to_dec (decToHexNat n) = some n := hex_to_dec_decToHexNat n
  rw [h] at h1
  have h0 : hex_to_dec "0" = some 0 := by decide
  rw [h0] at h1
  exact (Option.some_inj.mp h1).symm

theorem word_val_decToHexNat (n : Nat) : word_val (decToHexNat n) = some n := by
  rw [word_val]
  by_cases h : decToHexNat n = "0"
  · rw [if_pos h, decToHexNat_eq_zero_str h]
  · rw [if_neg h, hex_to_dec_decToHexNat]

theorem parse_bits_decToHexNat (n fromBit toBit : Nat) :
    parse_bits (decToHexNat n) fromBit toBit = some (bits_val n fromBit toBit) := by
  simp [parse_bits, word_val_decToHexNat]

/-! ### Constants (`const.py`) and Python exception model -/

def DELIMITER : String := "_"

def REQ_GET_PROPERTIES : String := "VPr07"
def REQ_GET_STATE : String := "VSt07"
def REQ_GET_SENSORS : String := "VSens"
def REQ_SET_POWER : String := "VWPwr"
def REQ_SET_TEMP : String := "VWTmp"
def REQ_SET_FAN_SPEED : String := "VWSpd"
def REQ_SET_MODE : String := "VWFtr"

def RESP_STATE : String := "VSt07"
def RESP_SENSORS : String := "VSens"
def RESP_PROPERTIES : String := "VPr07"
def RESP_OK : String := "OK"

/-- `ERROR_PREFIX` from `const.py`: the five device error tags with
their fixed human-readable reasons. -/
def ERROR_TAGS : List (String × String) :=
  [("VEPas", "Wrong password"),
   ("VEFrm", "Wrong format of request"),
   ("VECd1", "Request of type 1 not found"),
   ("VECd2", "Request of type 2 not found"),
   ("VEDat", "Error in request data")]

/-- `NO_DATA_VALUE` from `const.py`: reserved sensor sentinel. -/
def NO_DATA_VALUE : Nat := 0xFB07

/-- Reason associated to a device error tag (`parts[0] in ERROR_PREFIX`
membership plus dictionary lookup). -/
def errorReason (tag : String) : Option String :=
  (ERROR_TAGS.find? (fun p => p.1 = tag)).map Prod.snd

/-- Python exceptions raised by the client / transport, as an explicit
error type.  Constructors carry the payloads the source attaches. -/
inductive PyError where
  /-- `PermissionError` raised by `_check_error` on a device error tag:
  carries the tag's fixed reason and the full (re-joined) token
  sequence. -/
  | permissionError (reason : String) (response : String)
  /-- `ValueError`: unexpected leading tag, non-hex token, or
  out-of-range value in `_dec_to_hex`. -/
  | valueError (msg : String)
  /-- `IndexError`: token list shorter than an unconditional access. -/
  | indexError (i : Nat)
  /-- `TimeoutError`: response timeout or empty response (also connect
  timeout). -/
  | timeoutError (msg : String)
  /-- `ConnectionError`: not connected, or read error. -/
  | connectionError (msg : String)
  /-- Plain `OSError` (e.g. connect failure). -/
  | osError (msg : String)
deriving DecidableEq, Repr

/-- Python `isinstance(e, OSError)` for the modelled exceptions, per the
documented builtin exception hierarchy: `PermissionError`,
`ConnectionError` and `TimeoutError` are subclasses of `OSError`;
`ValueError` and `IndexError` are not. -/
def isInstanceOSError : PyError → Bool
  | .permissionError _ _ => true
  | .connectionError _ => true
  | .timeoutError _ => true
  | .osError _ => true
  | _ => false

/-- Python `isinstance(e, ConnectionError)`. -/
def isInstanceConnectionError : PyError → Bool
  | .connectionError _ => true
  | _ => false

/-- Python `isinstance(e, TimeoutError)`. -/
def isInstanceTimeoutError : PyError → Bool
  | .timeoutError _ => true
  | _ => false

/-- Whether the coordinator's
`except (ConnectionError, OSError, TimeoutError)` clause catches `e`. -/
def caughtByConnHandler (e : PyError) : Bool :=
  isInstanceConnectionError e || isInstanceOSError e || isInstanceTimeoutError e

/-! ### Response classification (`_check_error` in `_send`) -/

/-- `_check_error` from `coordinator.py`: if the first token is one of
the five device error tags, raise a `PermissionError` carrying the
tag's fixed reason and the full token sequence; otherwise the tokens
pass through unchanged. -/
def check_error (parts : List String) : Except PyError (List String) :=
  match parts with
  | [] => .ok []
  | tag :: _ =>
    match errorReason tag with
    | some reason =>
        .error (.permissionError reason (String.intercalate DELIMITER parts))
    | none => .ok parts

/-! ### State decoding (`get_state`) -/

/-- Decoded device state (the dict returned by
`BreezartTCPClient.get_state`). -/
structure DeviceState where
  power : Bool
  unit_state : Nat
  mode : Nat
  mode_set : Nat
  temperature : Int
  temperature_target : Nat
  humidity : Option Nat
  speed : Nat
  speed_target : Nat
  speed_fact : Option Nat
  filter_dust : Option Nat
  is_warn_err : Bool
  is_fatal_err : Bool
  danger_overheat : Bool
  change_filter : Bool
  color_msg : Nat
  color_ind : Nat
  msg : Option String
deriving DecidableEq, Repr

/-- Field extraction of `get_state` on the six decoded words
(`parts[1]`..`parts[6]`) and the optional 11th token. -/
def stateOfWords (w1 w2 w3 w4 w5 w6 : Nat) (msg : Option String) : DeviceState :=
  { power := bits_val w1 0 0 != 0
    is_warn_err := bits_val w1 1 1 != 0
    is_fatal_err := bits_val w1 2 2 != 0
    danger_overheat := bits_val w1 3 3 != 0
    change_filter := bits_val w1 5 5 != 0
    mode_set := bits_val w1 6 8
    unit_state := bits_val w2 0 1
    mode := bits_val w2 3 5
    temperature :=
      if bits_val w3 0 7 < 128 then (bits_val w3 0 7 : Int)
      else (bits_val w3 0 7 : Int) - 256
    temperature_target := bits_val w3 8 15
    humidity := if bits_val w4 0 7 = 255 then none else some (bits_val w4 0 7)
    speed := bits_val w5 0 3
    speed_target := bits_val w5 4 7
    speed_fact := if bits_val w5 8 15 = 255 then none else some (bits_val w5 8 15)
    color_msg := bits_val w6 4 5
    color_ind := bits_val w6 6 7
    filter_dust := if bits_val w6 8 15 = 255 then none else some (bits_val w6 8 15)
    msg := msg }

/-- Decoding part of `BreezartTCPClient.get_state`: tag check, then
word-by-word bit extraction.  A missing token models `IndexError`, a
non-hex token models `ValueError`; each source field is
`_parse_bits(parts[i], a, b) = (word_val parts[i]).map (bits_val · a b)`,
so the per-word decode below raises exactly when any field parse
would. -/
def decodeState (parts : List String) : Except PyError DeviceState :=
  match parts with
  | [] => .error (.valueError "Unexpected state response")
  | tag :: _ =>
    if tag ≠ RESP_STATE then
      .error (.valueError ("Unexpected state response: " ++ String.intercalate DELIMITER parts))
    else
      match parts.get? 1, parts.get? 2, parts.get? 3,
            parts.get? 4, parts.get? 5, parts.get? 6 with
      | some s1, some s2, some s3, some s4, some s5, some s6 =>
        match word_val s1, word_val s2, word_val s3,
              word_val s4, word_val s5, word_val s6 with
        | some w1, some w2, some w3, some w4, some w5, some w6 =>
            .ok (stateOfWords w1 w2 w3 w4 w5 w6 (parts.get? 10))
        | _, _, _, _, _, _ => .error (.valueError "invalid literal for int with base 16")
      | _, _, _, _, _, _ => .error (.indexError 6)

/-- Full state exchange as seen from the response tokens: `_send`
applies `_check_error`, then `get_state` decodes. -/
def get_state (parts : List String) : Except PyError DeviceState :=
  check_error parts >>= decodeState

/-! ### Sensor decoding (`get_sensors`) -/

/-- Decoded sensor readings (the dict returned by
`BreezartTCPClient.get_sensors`).  Python floats on these channels are
exact decimal values (`signed/10.0` or `float(unsigned)`), modelled as
rationals. -/
structure SensorReadings where
  temp_supply : Option ℚ
  temp_room : Option ℚ
  temp_outdoor : Option ℚ
  temp_water : Option ℚ
  power_consumption : Option ℚ
deriving DecidableEq, Repr

/-- `_parse_temp_sensor` from `get_sensors`: sentinel token `"fb07"`
maps to absent, otherwise signed 16-bit hex divided by 10. -/
def parse_temp_sensor (val : String) : Except PyError (Option ℚ) :=
  if val = "fb07" then .ok none
  else
    match hex_to_dec_sign val with
    | some v => .ok (some ((v : ℚ) / 10))
    | none => .error (.valueError "invalid literal for int with base 16")

/-- `_parse_sensor` from `get_sensors`: sentinel token `"fb07"` maps to
absent, otherwise plain unsigned hex. -/
def parse_sensor (val : String) : Except PyError (Option ℚ) :=
  if val = "fb07" then .ok none
  else
    match hex_to_dec val with
    | some v => .ok (some (v : ℚ))
    | none => .error (.valueError "invalid literal for int with base 16")

/-- Length-guarded channel parse: `f(parts[i]) if len(parts) > i else None`. -/
def parseAt (parts : List String) (i : Nat)
    (f : String → Except PyError (Option ℚ)) : Except PyError (Option ℚ) :=
  match parts.get? i with
  | some s => f s
  | none => .ok none

/-- Decoding part of `BreezartTCPClient.get_sensors`: tag check, then
the five guarded channel parses (`parts[1]`, `parts[3]`, `parts[5]`,
`parts[7]`, `parts[8]`). -/
def decodeSensors (parts : List String) : Except PyError SensorReadings :=
  match parts with
  | [] => .error (.valueError "Unexpected sensors response")
  | tag :: _ =>
    if tag ≠ RESP_SENSORS then
      .error (.valueError ("Unexpected sensors response: " ++ String.intercalate DELIMITER parts))
    else do
      let t_inf ← parseAt parts 1 parse_temp_sensor
      let t_room ← parseAt parts 3 parse_sensor
      let t_out ← parseAt parts 5 parse_temp_sensor
      let t_hf ← parseAt parts 7 parse_sensor
      let pwr ← parseAt parts 8 parse_sensor
      .ok { temp_supply := t_inf, temp_room := t_room, temp_outdoor := t_out,
            temp_water := t_hf, power_consumption := pwr }

/-- Full sensors exchange: `_check_error` then decode. -/
def get_sensors (parts : List String) : Except PyError SensorReadings :=
  check_error parts >>= decodeSensors

/-! ### Client state and properties (`BreezartTCPClient`) -/

/-- The client's per-connection fields: connection parameters plus the
capability values populated by `get_properties`. -/
structure Client where
  host : String
  port : Nat
  password : Int
  timeout : Nat
  temp_min : Nat
  temp_max : Nat
  speed_min : Nat
  speed_max : Nat
  has_cooler : Bool
  has_humidifier : Bool
  firmware_ver : Option Nat
  protocol_ver : Option String
deriving DecidableEq, Repr

/-- `BreezartTCPClient.__init__`: connection parameters stored,
capability fields set to their fixed defaults. -/
def initClient (host : String) (port : Nat) (password : Int) (timeout : Nat) : Client :=
  { host := host, port := port, password := password, timeout := timeout
    temp_min := 15, temp_max := 30, speed_min := 1, speed_max := 10
    has_cooler := false, has_humidifier := false
    firmware_ver := none, protocol_ver := none }

/-- One token read of `get_properties` feeding `_parse_bits`: a missing
token models `IndexError`, a non-hex token models `ValueError`. -/
def propWord (parts : List String) (i : Nat) : Except PyError Nat :=
  match parts.get? i with
  | none => .error (.indexError i)
  | some s =>
    match word_val s with
    | some w => .ok w
    | none => .error (.valueError "invalid literal for int with base 16")

/-- The firmware token read of `get_properties`, which uses
`_hex_to_dec` directly (no `"0"` short-circuit). -/
def propFirmware (parts : List String) (i : Nat) : Except PyError Nat :=
  match parts.get? i with
  | none => .error (.indexError i)
  | some s =>
    match hex_to_dec s with
    | some w => .ok w
    | none => .error (.valueError "invalid literal for int with base 16")

/-- Decoding part of `BreezartTCPClient.get_properties`, preserving the
source's mutation order: the capability fields are assigned on `self`
one token at a time (`parts[1]`, `parts[2]`, `parts[4]`, `parts[5]`,
`parts[7]`), so a failure at a later token leaves the earlier
assignments in place — the partially overwritten client is returned
alongside the raised error.  The two fields read from one token
(`temp_min`/`temp_max` from `parts[1]`, and likewise for the other
pairs) parse that same token twice in the source and therefore succeed
or fail together, so they form one update step here. -/
def decodeProperties (c : Client) (parts : List String) : Client × Except PyError Unit :=
  match parts with
  | [] => (c, .error (.valueError "Unexpected properties response"))
  | tag :: _ =>
    if tag ≠ RESP_PROPERTIES then
      (c, .error (.valueError ("Unexpected properties response: " ++ String.intercalate DELIMITER parts)))
    else
      match propWord parts 1 with
      | .error e => (c, .error e)
      | .ok w1 =>
        let c1 := { c with temp_min := bits_val w1 0 7, temp_max := bits_val w1 8 15 }
        match propWord parts 2 with
        | .error e => (c1, .error e)
        | .ok w2 =>
          let c2 := { c1 with speed_min := bits_val w2 0 7, speed_max := bits_val w2 8 15 }
          match propWord parts 4 with
          | .error e => (c2, .error e)
          | .ok w4 =>
            let c3 := { c2 with has_cooler := bits_val w4 14 14 != 0,
                                has_humidifier := bits_val w4 13 13 != 0 }
            match propWord parts 5 with
            | .error e => (c3, .error e)
            | .ok w5 =>
              let c4 := { c3 with protocol_ver := some (toString (bits_val w5 8 15) ++ "." ++ toString (bits_val w5 0 7)) }
              match propFirmware parts 7 with
              | .error e => (c4, .error e)
              | .ok fw => ({ c4 with firmware_ver := some fw }, .ok ())

/-- Full properties exchange: `_check_error` (which raises before any
assignment) then the mutating decode. -/
def get_properties (c : Client) (parts : List String) : Client × Except PyError Unit :=
  match check_error parts with
  | .error e => (c, .error e)
  | .ok l => decodeProperties c l

/-! ### Command requests and acknowledgement -/

/-- `_build_request`: `requestType_password[_data]`; `_dec_to_hex`
raises `ValueError` (modelled `Except.error`) out of range, in which
case nothing is transmitted. -/
def build_request (c : Client) (requestType : String) (data : Option Int) :
    Except PyError String :=
  match dec_to_hex c.password with
  | none => .error (.valueError "Value must be a positive integer <= 65535")
  | some pw =>
    match data with
    | none => .ok (String.intercalate DELIMITER [requestType, pw])
    | some d =>
      match dec_to_hex d with
      | none => .error (.valueError "Value must be a positive integer <= 65535")
      | some ds => .ok (String.intercalate DELIMITER [requestType, pw, ds])

/-- Request line built (and, when `ok`, transmitted) by
`BreezartTCPClient.set_temperature`.  The source performs no
`temp_min`/`temp_max` comparison; the only failure before transmission
is `_dec_to_hex`'s range check. -/
def set_temperature_request (c : Client) (temperature : Int) : Except PyError String :=
  build_request c REQ_SET_TEMP (some temperature)

/-- Request line built by `BreezartTCPClient.set_fan_speed`; likewise
no `speed_min`/`speed_max` comparison in the source. -/
def set_fan_speed_request (c : Client) (speed : Int) : Except PyError String :=
  build_request c REQ_SET_FAN_SPEED (some speed)

/-- Acknowledgement check shared by `set_power`, `set_temperature`,
`set_fan_speed`, `set_mode`: the response's first token must be the
literal `OK` tag. -/
def checkOk (parts : List String) : Except PyError Unit :=
  match parts with
  | [] => .error (.valueError "Unexpected command response")
  | tag :: _ =>
    if tag ≠ RESP_OK then
      .error (.valueError ("Unexpected command response: " ++ String.intercalate DELIMITER parts))
    else .ok ()

/-- Full command response handling: `_check_error` then the `OK`
check. -/
def command_response (parts : List String) : Except PyError Unit :=
  check_error parts >>= checkOk

/-! ### Poll coordinator (`BreezartDataCoordinator._async_update_data`) -/

/-- Coordinator-side connection state: the client's fields, whether the
TCP session is open (`self.client._writer` truthy) and whether
properties have been loaded this session (`self._properties_loaded`). -/
structure CoordState where
  client : Client
  connected : Bool
  propertiesLoaded : Bool
deriving DecidableEq, Repr

/-- Merged snapshot of one successful tick: state and sensors plus the
client's cached capability fields. -/
structure Snapshot where
  state : DeviceState
  sensors : SensorReadings
  props : Client
deriving DecidableEq, Repr

/-- Transport-level outcomes of one tick, supplied by the environment:
the connect result and, for each of the three reads, either the token
list produced by `_send`'s read-and-split phase or a transport error
(`TimeoutError` on timeout/empty response, `ConnectionError` on read
failure). -/
structure TickEnv where
  connectResult : Option PyError
  propsRead : Except PyError (List String)
  stateRead : Except PyError (List String)
  sensorsRead : Except PyError (List String)
deriving Repr

/-- The `try` body of `_async_update_data`: connect if not connected,
fetch properties once per session, then state and sensors; returns the
intermediate coordinator state together with the result. -/
def tickCore (s : CoordState) (env : TickEnv) :
    CoordState × Except PyError Snapshot :=
  let (s1, conn) :=
    if s.connected then (s, Except.ok ())
    else
      match env.connectResult with
      | none => ({ s with connected := true }, Except.ok ())
      | some e => (s, Except.error e)
  match conn with
  | .error e => (s1, .error e)
  | .ok _ =>
    let (s2, props) :=
      if s1.propertiesLoaded then (s1, Except.ok ())
      else
        match env.propsRead with
        | .error e => (s1, Except.error e)
        | .ok parts =>
          match get_properties s1.client parts with
          | (c, .ok _) => ({ s1 with client := c, propertiesLoaded := true }, Except.ok ())
          | (c, .error e) => ({ s1 with client := c }, Except.error e)
    match props with
    | .error e => (s2, .error e)
    | .ok _ =>
      match env.stateRead >>= get_state with
      | .error e => (s2, .error e)
      | .ok st =>
        match env.sensorsRead >>= get_sensors with
        | .error e => (s2, .error e)
        | .ok sens => (s2, .ok { state := st, sensors := sens, props := s2.client })

/-- `_async_update_data` with its two `except` clauses: errors caught by
`except (ConnectionError, OSError, TimeoutError)` reset
`_properties_loaded` and disconnect; every other exception leaves the
connection state as the `try` body left it.  Both re-raise as
`UpdateFailed` (the tick fails). -/
def tick (s : CoordState) (env : TickEnv) :
    CoordState × Except PyError Snapshot :=
  match tickCore s env with
  | (s', .ok snap) => (s', .ok snap)
  | (s', .error e) =>
    if caughtByConnHandler e then
      ({ s' with connected := false, propertiesLoaded := false }, .error e)
    else (s', .error e)

/-! ### Climate entity optimistic overlay (`climate.py`) -/

def OPTIMISTIC_HOLD_SECONDS : Int := 6

/-- Optimistic-override fields of `BreezartClimate`.  `time.monotonic()`
timestamps are modelled as integers. -/
structure ClimateState where
  optimistic_target_temp : Option Int
  optimistic_fan_mode : Option String
  optimistic_hvac_mode : Option String
  optimistic_set_time : Int
deriving DecidableEq, Repr

/-- `BreezartClimate._handle_coordinator_update` at monotonic time
`now`: clear all optimistic values only once the hold period has
expired. -/
def handle_coordinator_update (c : ClimateState) (now : Int) : ClimateState :=
  if now - c.optimistic_set_time > OPTIMISTIC_HOLD_SECONDS then
    { c with optimistic_target_temp := none, optimistic_fan_mode := none,
             optimistic_hvac_mode := none }
  else c

/-- `BreezartClimate.target_temperature`: the optimistic value, when
present, is served ahead of the coordinator's polled
`temperature_target` (`polled`, absent when there is no data yet). -/
def target_temperature (c : ClimateState) (polled : Option Int) : Option Int :=
  match c.optimistic_target_temp with
  | some v => some v
  | none => polled

/-- First half of `BreezartClimate.async_set_temperature`: record the
optimistic value and its issue time before the command is sent. -/
def set_temperature_issued (c : ClimateState) (v : Int) (now : Int) : ClimateState :=
  { c with optimistic_target_temp := some v, optimistic_set_time := now }

/-- `except` branch of `BreezartClimate.async_set_temperature`: on
command failure the optimistic value is cleared immediately. -/
def set_temperature_failed (c : ClimateState) : ClimateState :=
  { c with optimistic_target_temp := none }

/-! ### Claims -/

theorem check_error_ok {parts l : List String}
    (h : check_error parts = .ok l) : l = parts := by
  cases parts with
  | nil => simp only [check_error, Except.ok.injEq] at h; exact h.symm
  | cons tag rest =>
    simp only [check_error] at h
    cases herr : errorReason tag with
    | some reason => rw [herr] at h; simp at h
    | none => rw [herr] at h; simp only [Except.ok.injEq] at h; exact h.symm

/-- C10 counterexample: the defaults are **not** exposed all the way to
the first successful properties fetch.  A tick whose properties
response `VPr07_1910` passes the tag check but ends before `parts[2]`
assigns `temp_min := 16` and `temp_max := 25` and then raises
`IndexError`: the fetch fails (`_properties_loaded` remains `False`,
so no successful fetch has occurred), yet the client now exposes
non-default capability bounds. -/
theorem claim_C10_counterexample :
    (let r := tick
      { client := initClient "host" 1560 1 5, connected := true, propertiesLoaded := false }
      { connectResult := none, propsRead := .ok ["VPr07", "1910"], stateRead := .ok [],
        sensorsRead := .ok [] }
     r.2 = .error (.indexError 2) ∧ r.1.propertiesLoaded = false ∧
      r.1.client.temp_min ≠ 15 ∧ r.1.client.temp_max ≠ 30 ∧
      r.1.client.temp_min = 16 ∧ r.1.client.temp_max = 25) := by
  refine ⟨?_, ?_, ?_, ?_, ?_, ?_⟩ <;> decide

/-- C10 as amended: at construction the client exposes the fixed
default capability values (`temp_min = 15`, `temp_max = 30`,
`speed_min = 1`, `speed_max = 10`, `has_cooler = false`,
`has_humidifier = false`, absent `firmware_ver`/`protocol_ver`), so
capability-dependent reads are defined before any properties have been
fetched; and the defaults are guaranteed only until the first
properties response that passes the device-error and leading-tag
checks — any exchange failing those checks leaves every capability
field unchanged, whereas a response that passes them may overwrite the
capability fields one token at a time even if its parse later fails
(see the counterexample). -/
theorem claim_C10_amended (host : String) (port : Nat) (password : Int) (timeout : Nat)
    (c : Client) (parts : List String)
    (h : parts.head? ≠ some RESP_PROPERTIES) :
    ((initClient host port password timeout).temp_min = 15 ∧
     (initClient host port password timeout).temp_max = 30 ∧
     (initClient host port password timeout).speed_min = 1 ∧
     (initClient host port password timeout).speed_max = 10 ∧
     (initClient host port password timeout).has_cooler = false ∧
     (initClient host port password timeout).has_humidifier = false ∧
     (initClient host port password timeout).firmware_ver = none ∧
     (initClient host port password timeout).protocol_ver = none) ∧
    (get_properties c parts).1 = c := by
  refine ⟨⟨rfl, rfl, rfl, rfl, rfl, rfl, rfl, rfl⟩, ?_⟩
  cases parts with
  | nil => rfl
  | cons tag rest =>
    simp only [List.head?, ne_eq, Option.some_inj] at h
    rw [get_properties]
    cases herr : check_error (tag :: rest) with
    | error e => simp
    | ok l =>
      have hl := check_error_ok herr
      subst hl
      simp [decodeProperties, h]

/-- C10 amended witness: concrete constructor defaults, and a
properties exchange answered with a wrong leading tag leaving the
client untouched. -/
theorem claim_C10_witness :
    ((initClient "host" 1560 1 5).temp_min = 15 ∧
     (initClient "host" 1560 1 5).temp_max = 30 ∧
     (initClient "host" 1560 1 5).speed_min = 1 ∧
     (initClient "host" 1560 1 5).speed_max = 10 ∧
     (initClient "host" 1560 1 5).has_cooler = false ∧
     (initClient "host" 1560 1 5).has_humidifier = false ∧
     (initClient "host" 1560 1 5).firmware_ver = none ∧
     (initClient "host" 1560 1 5).protocol_ver = none) ∧
    (get_properties (initClient "host" 1560 1 5) ["VSt07"]).1 =
      initClient "host" 1560 1 5 :=
  claim_C10_amended "host" 1560 1 5 (initClient "host" 1560 1 5) ["VSt07"] (by decide)

/-- C8: for every integer `x` in `0..65535`, decoding the lowercase
unpadded hex produced by `_dec_to_hex` recovers `x`; for every integer
outside `0..65535`, `_dec_to_hex` fails with its range error. -/
theorem claim_C8_hex_roundtrip_range (x : Int) :
    (0 ≤ x → x ≤ 65535 →
      (dec_to_hex x).bind (fun s => (hex_to_dec s).map Int.ofNat) = some x) ∧
    (x < 0 ∨ 65535 < x → dec_to_hex x = none) := by
  constructor
  · intro h0 h1
    have hcond : ¬(x < 0 ∨ 65535 < x) := by omega
    rw [dec_to_hex, if_neg hcond, Option.some_bind, hex_to_dec_decToHexNat]
    simp [Int.toNat_of_nonneg h0]
  · intro h
    rw [dec_to_hex, if_pos h]

/-- C8 witness: the round trip at `x = 255` and the range failure at
`x = 70000`. -/
theorem claim_C8_witness :
    (dec_to_hex 255).bind (fun s => (hex_to_dec s).map Int.ofNat) = some 255 ∧
    dec_to_hex 70000 = none :=
  ⟨(claim_C8_hex_roundtrip_range 255).1 (by decide) (by decide),
   (claim_C8_hex_roundtrip_range 70000).2 (by decide)⟩

/-- C3: after `set_temperature(v)` is issued at time `tm`, the
predicted value is presented immediately ahead of the polled value; a
coordinator update arriving within the 6-second hold window keeps the
override visible even though newer data arrived, an update arriving
after the window clears it so the presented value reverts to the polled
value, and a command failure clears it immediately, bypassing the hold
window. -/
theorem claim_C3_optimistic_lifecycle (c : ClimateState) (v tm now : Int)
    (polled : Option Int) :
    target_temperature (set_temperature_issued c v tm) polled = some v ∧
    (now - tm ≤ 6 →
      target_temperature
        (handle_coordinator_update (set_temperature_issued c v tm) now) polled = some v) ∧
    (now - tm > 6 →
      target_temperature
        (handle_coordinator_update (set_temperature_issued c v tm) now) polled = polled) ∧
    target_temperature (set_temperature_failed (set_temperature_issued c v tm)) polled = polled := by
  refine ⟨rfl, ?_, ?_, rfl⟩
  · intro h
    have : ¬(now - tm > OPTIMISTIC_HOLD_SECONDS) := by
      simp only [OPTIMISTIC_HOLD_SECONDS]; omega
    simp [handle_coordinator_update, set_temperature_issued, this, target_temperature]
  · intro h
    have : now - tm > OPTIMISTIC_HOLD_SECONDS := by
      simp only [OPTIMISTIC_HOLD_SECONDS]; omega
    simp [handle_coordinator_update, set_temperature_issued, this, target_temperature]

/-- C3 witness: concrete run — `setTemperature(22)` issued at `tm = 0`
over a polled value of 20: shown immediately, still shown at an update
at `now = 4`, reverted at an update at `now = 7`, and cleared by a
command failure. -/
theorem claim_C3_witness :
    target_temperature (set_temperature_issued ⟨none, none, none, 0⟩ 22 0) (some 20) = some 22 ∧
    target_temperature
      (handle_coordinator_update (set_temperature_issued ⟨none, none, none, 0⟩ 22 0) 4)
      (some 20) = some 22 ∧
    target_temperature
      (handle_coordinator_update (set_temperature_issued ⟨none, none, none, 0⟩ 22 0) 7)
      (some 20) = some 20 ∧
    target_temperature
      (set_temperature_failed (set_temperature_issued ⟨none, none, none, 0⟩ 22 0))
      (some 20) = some 20 :=
  ⟨(claim_C3_optimistic_lifecycle ⟨none, none, none, 0⟩ 22 0 4 (some 20)).1,
   (claim_C3_optimistic_lifecycle ⟨none, none, none, 0⟩ 22 0 4 (some 20)).2.1 (by decide),
   (claim_C3_optimistic_lifecycle ⟨none, none, none, 0⟩ 22 0 7 (some 20)).2.2.1 (by decide),
   (claim_C3_optimistic_lifecycle ⟨none, none, none, 0⟩ 22 0 7 (some 20)).2.2.2⟩

theorem bits_val_eq_div_mod (n a b : Nat) :
    bits_val n a b = n / 2 ^ a % 2 ^ (b - a + 1) := by
  rw [bits_val, Nat.shiftRight_eq_div_pow]

theorem bits_val_single_testBit (n i : Nat) :
    (bits_val n i i != 0) = n.testBit i := by
  rw [bits_val_eq_div_mod, Nat.sub_self, Nat.testBit_to_div_mod]
  rcases Nat.mod_two_eq_zero_or_one (n / 2 ^ i) with h | h <;> simp [h]

/-- C2: for every well-formed state response (leading state tag, six
16-bit hex words, arbitrary remaining tokens), `get_state` decodes the
fields exactly per the word→field bit layout, the `255` sentinel maps
`humidity`/`speed_fact`/`filter_dust` to absent, `temperature` is the
signed 8-bit reading of bits 0–7 of word 3, and `msg` is the 11th
token when present. -/
theorem claim_C2_get_state_layout (w1 w2 w3 w4 w5 w6 : Nat)
    (h1 : w1 < 65536) (h2 : w2 < 65536) (h3 : w3 < 65536)
    (h4 : w4 < 65536) (h5 : w5 < 65536) (h6 : w6 < 65536)
    (rest : List String) :
    get_state ("VSt07" :: decToHexNat w1 :: decToHexNat w2 :: decToHexNat w3 ::
        decToHexNat w4 :: decToHexNat w5 :: decToHexNat w6 :: rest) =
      .ok { power := w1.testBit 0
            is_warn_err := w1.testBit 1
            is_fatal_err := w1.testBit 2
            danger_overheat := w1.testBit 3
            change_filter := w1.testBit 5
            mode_set := w1 / 2 ^ 6 % 2 ^ 3
            unit_state := w2 % 2 ^ 2
            mode := w2 / 2 ^ 3 % 2 ^ 3
            temperature := if w3 % 2 ^ 8 < 128 then (w3 % 2 ^ 8 : Int)
                           else (w3 % 2 ^ 8 : Int) - 256
            temperature_target := w3 / 2 ^ 8 % 2 ^ 8
            humidity := if w4 % 2 ^ 8 = 255 then none else some (w4 % 2 ^ 8)
            speed := w5 % 2 ^ 4
            speed_target := w5 / 2 ^ 4 % 2 ^ 4
            speed_fact := if w5 / 2 ^ 8 % 2 ^ 8 = 255 then none
                          else some (w5 / 2 ^ 8 % 2 ^ 8)
            color_msg := w6 / 2 ^ 4 % 2 ^ 2
            color_ind := w6 / 2 ^ 6 % 2 ^ 2
            filter_dust := if w6 / 2 ^ 8 % 2 ^ 8 = 255 then none
                           else some (w6 / 2 ^ 8 % 2 ^ 8)
            msg := rest.get? 3 } := by
  have herr : errorReason "VSt07" = none := by decide
  rw [get_state]
  simp only [check_error, herr, Bind.bind, Except.bind]
  simp only [decodeState, RESP_STATE, ne_eq, not_true_eq_false, if_false,
    List.get?, word_val_decToHexNat]
  congr 1
  simp only [stateOfWords, DeviceState.mk.injEq, bits_val_single_testBit]
  simp only [bits_val_eq_div_mod]
  norm_num

/-- C2 witness: a concrete healthy running-state response — power on,
requested mode 1, unit running in mode 4, temperature 22 with
target 23, humidity absent, speed 2 with target 3 and absent fact,
indicator green, filter dust 10, no message token. -/
theorem claim_C2_witness :
    get_state ("VSt07" :: decToHexNat 65 :: decToHexNat 33 :: decToHexNat 5910 ::
        decToHexNat 255 :: decToHexNat 65330 :: decToHexNat 2688 :: []) =
      .ok { power := true, is_warn_err := false, is_fatal_err := false
            danger_overheat := false, change_filter := false, mode_set := 1
            unit_state := 1, mode := 4, temperature := 22, temperature_target := 23
            humidity := none, speed := 2, speed_target := 3, speed_fact := none
            color_msg := 0, color_ind := 2, filter_dust := some 10, msg := none } := by
  have h := claim_C2_get_state_layout 65 33 5910 255 65330 2688
    (by decide) (by decide) (by decide) (by decide) (by decide) (by decide) []
  rw [h]
  congr 1

/-- C6: for every exchange (properties, state, sensors, and every
command), a response whose first token is one of the five device error
tags fails with the `PermissionError` carrying that tag's fixed reason
and the full token sequence, before any field decoding occurs; a first
token that is not one of the five tags passes through `_check_error`
unchanged. -/
theorem claim_C6_error_classification (tag : String) (rest : List String) (c : Client) :
    (∀ reason, errorReason tag = some reason →
      get_state (tag :: rest) =
        .error (.permissionError reason (String.intercalate DELIMITER (tag :: rest))) ∧
      get_sensors (tag :: rest) =
        .error (.permissionError reason (String.intercalate DELIMITER (tag :: rest))) ∧
      get_properties c (tag :: rest) =
        (c, .error (.permissionError reason (String.intercalate DELIMITER (tag :: rest)))) ∧
      command_response (tag :: rest) =
        .error (.permissionError reason (String.intercalate DELIMITER (tag :: rest)))) ∧
    (errorReason tag = none → check_error (tag :: rest) = .ok (tag :: rest)) := by
  constructor
  · intro reason hr
    refine ⟨?_, ?_, ?_, ?_⟩ <;>
      simp [get_state, get_sensors, get_properties, command_response,
        check_error, hr, Bind.bind, Except.bind]
  · intro hr
    simp [check_error, hr]

/-- C6 witness: the `VEDat` tag fails every exchange with its fixed
reason and the joined tokens, while the ordinary state tag passes
through. -/
theorem claim_C6_witness :
    get_state ["VEDat", "ff"] =
      .error (.permissionError "Error in request data" "VEDat_ff") ∧
    get_sensors ["VEDat", "ff"] =
      .error (.permissionError "Error in request data" "VEDat_ff") ∧
    get_properties (initClient "h" 1560 1 5) ["VEDat", "ff"] =
      (initClient "h" 1560 1 5,
        .error (.permissionError "Error in request data" "VEDat_ff")) ∧
    command_response ["VEDat", "ff"] =
      .error (.permissionError "Error in request data" "VEDat_ff") ∧
    check_error ["VSt07", "ff"] = .ok ["VSt07", "ff"] := by
  have h1 := (claim_C6_error_classification "VEDat" ["ff"] (initClient "h" 1560 1 5)).1
    "Error in request data" (by decide)
  have h2 := (claim_C6_error_classification "VSt07" ["ff"] (initClient "h" 1560 1 5)).2
    (by decide)
  have hj : String.intercalate DELIMITER ["VEDat", "ff"] = "VEDat_ff" := by decide
  rw [hj] at h1
  exact ⟨h1.1, h1.2.1, h1.2.2.1, h1.2.2.2, h2⟩

/-- Successful sensor decoding determines each channel as the guarded
parse of its fixed token position. -/
theorem decodeSensors_fields {parts : List String} {r : SensorReadings}
    (h : decodeSensors parts = .ok r) :
    parseAt parts 1 parse_temp_sensor = .ok r.temp_supply ∧
    parseAt parts 3 parse_sensor = .ok r.temp_room ∧
    parseAt parts 5 parse_temp_sensor = .ok r.temp_outdoor ∧
    parseAt parts 7 parse_sensor = .ok r.temp_water ∧
    parseAt parts 8 parse_sensor = .ok r.power_consumption := by
  cases parts with
  | nil => simp [decodeSensors] at h
  | cons tag rest =>
    by_cases htag : tag = RESP_SENSORS
    · subst htag
      simp only [decodeSensors, ne_eq, not_true_eq_false, if_false] at h
      cases h1 : parseAt (RESP_SENSORS :: rest) 1 parse_temp_sensor with
      | error e => rw [h1] at h; simp [Bind.bind, Except.bind] at h
      | ok a =>
        rw [h1] at h
        simp only [Bind.bind, Except.bind] at h
        cases h2 : parseAt (RESP_SENSORS :: rest) 3 parse_sensor with
        | error e => rw [h2] at h; simp [Except.bind] at h
        | ok b =>
          rw [h2] at h
          cases h3 : parseAt (RESP_SENSORS :: rest) 5 parse_temp_sensor with
          | error e => rw [h3] at h; simp [Except.bind] at h
          | ok c =>
            rw [h3] at h
            cases h4 : parseAt (RESP_SENSORS :: rest) 7 parse_sensor with
            | error e => rw [h4] at h; simp [Except.bind] at h
            | ok d =>
              rw [h4] at h
              cases h5 : parseAt (RESP_SENSORS :: rest) 8 parse_sensor with
              | error e => rw [h5] at h; simp [Except.bind] at h
              | ok e =>
                rw [h5] at h
                simp only [Except.ok.injEq] at h
                subst h
                exact ⟨rfl, rfl, rfl, rfl, rfl⟩
    · simp [decodeSensors, htag] at h

theorem get_sensors_ok {parts : List String} {r : SensorReadings}
    (h : get_sensors parts = .ok r) : decodeSensors parts = .ok r := by
  rw [get_sensors] at h
  cases hc : check_error parts with
  | error e => rw [hc] at h; simp [Bind.bind, Except.bind] at h
  | ok l =>
    rw [hc] at h
    simp only [Bind.bind, Except.bind] at h
    rwa [check_error_ok hc] at h

theorem decToHexNat_sentinel : decToHexNat NO_DATA_VALUE = "fb07" := by decide

/-- C7: for each sensor channel, a token equal to the lowercase hex
encoding of the reserved no-data sentinel `0xFB07` at that channel's
token position makes the channel decode to absent, whichever of the
five positions the sentinel appears in. -/
theorem claim_C7_sentinel_absent (parts : List String) (r : SensorReadings)
    (h : get_sensors parts = .ok r) :
    (parts.get? 1 = some (decToHexNat NO_DATA_VALUE) → r.temp_supply = none) ∧
    (parts.get? 3 = some (decToHexNat NO_DATA_VALUE) → r.temp_room = none) ∧
    (parts.get? 5 = some (decToHexNat NO_DATA_VALUE) → r.temp_outdoor = none) ∧
    (parts.get? 7 = some (decToHexNat NO_DATA_VALUE) → r.temp_water = none) ∧
    (parts.get? 8 = some (decToHexNat NO_DATA_VALUE) → r.power_consumption = none) := by
  obtain ⟨f1, f2, f3, f4, f5⟩ := decodeSensors_fields (get_sensors_ok h)
  refine ⟨fun hp => ?_, fun hp => ?_, fun hp => ?_, fun hp => ?_, fun hp => ?_⟩
  · rw [parseAt, hp, decToHexNat_sentinel] at f1
    simpa [parse_temp_sensor] using f1.symm
  · rw [parseAt, hp, decToHexNat_sentinel] at f2
    simpa [parse_sensor] using f2.symm
  · rw [parseAt, hp, decToHexNat_sentinel] at f3
    simpa [parse_temp_sensor] using f3.symm
  · rw [parseAt, hp, decToHexNat_sentinel] at f4
    simpa [parse_sensor] using f4.symm
  · rw [parseAt, hp, decToHexNat_sentinel] at f5
    simpa [parse_sensor] using f5.symm

/-- C7 witness: a response carrying the sentinel in all five channel
positions decodes every channel to absent. -/
theorem claim_C7_witness :
    (let parts := ["VSens", decToHexNat NO_DATA_VALUE, "0", decToHexNat NO_DATA_VALUE,
      "0", decToHexNat NO_DATA_VALUE, "0", decToHexNat NO_DATA_VALUE, decToHexNat NO_DATA_VALUE]
     ∃ r, get_sensors parts = .ok r ∧
      r.temp_supply = none ∧ r.temp_room = none ∧ r.temp_outdoor = none ∧
      r.temp_water = none ∧ r.power_consumption = none) := by
  refine ⟨⟨none, none, none, none, none⟩, by decide, ?_⟩
  have h := claim_C7_sentinel_absent
    ["VSens", decToHexNat NO_DATA_VALUE, "0", decToHexNat NO_DATA_VALUE,
      "0", decToHexNat NO_DATA_VALUE, "0", decToHexNat NO_DATA_VALUE, decToHexNat NO_DATA_VALUE]
    ⟨none, none, none, none, none⟩ (by decide)
  exact ⟨h.1 rfl, h.2.1 rfl, h.2.2.1 rfl, h.2.2.2.1 rfl, h.2.2.2.2 rfl⟩

theorem parseAt_temp_ok {parts : List String} {i : Nat}
    (hv : ∀ s, parts.get? i = some s → s = "fb07" ∨ (hex_to_dec s).isSome) :
    ∃ o, parseAt parts i parse_temp_sensor = .ok o ∧ (parts.get? i = none → o = none) := by
  cases hg : parts.get? i with
  | none =>
    refine ⟨none, ?_, fun _ => rfl⟩
    simp only [parseAt]
    rw [hg]
  | some s =>
    have hrw : parseAt parts i parse_temp_sensor = parse_temp_sensor s := by
      simp only [parseAt]
      rw [hg]
    rcases hv s hg with hs | hs
    · exact ⟨none, by rw [hrw, hs]; simp [parse_temp_sensor], by simp [hg]⟩
    · obtain ⟨v, hval⟩ := Option.isSome_iff_exists.mp hs
      by_cases hfb : s = "fb07"
      · exact ⟨none, by rw [hrw, hfb]; simp [parse_temp_sensor], by simp [hg]⟩
      · refine ⟨some (((hex_to_dec_sign s).getD 0 : ℚ) / 10), ?_, by simp [hg]⟩
        rw [hrw]
        simp [parse_temp_sensor, hfb, hex_to_dec_sign, hval]

theorem parseAt_plain_ok {parts : List String} {i : Nat}
    (hv : ∀ s, parts.get? i = some s → s = "fb07" ∨ (hex_to_dec s).isSome) :
    ∃ o, parseAt parts i parse_sensor = .ok o ∧ (parts.get? i = none → o = none) := by
  cases hg : parts.get? i with
  | none =>
    refine ⟨none, ?_, fun _ => rfl⟩
    simp only [parseAt]
    rw [hg]
  | some s =>
    have hrw : parseAt parts i parse_sensor = parse_sensor s := by
      simp only [parseAt]
      rw [hg]
    rcases hv s hg with hs | hs
    · exact ⟨none, by rw [hrw, hs]; simp [parse_sensor], by simp [hg]⟩
    · obtain ⟨v, hval⟩ := Option.isSome_iff_exists.mp hs
      by_cases hfb : s = "fb07"
      · exact ⟨none, by rw [hrw, hfb]; simp [parse_sensor], by simp [hg]⟩
      · exact ⟨some (v : ℚ), by rw [hrw]; simp [parse_sensor, hfb, hval], by simp [hg]⟩

/-- C9: `get_sensors` is total over short responses — for every token
list whose first token is the sensors tag and whose present data tokens
(at positions 1, 3, 5, 7, 8) are the sentinel or valid hex, decoding
succeeds, and every channel whose token position is beyond the end of
the list is absent rather than an out-of-range failure. -/
theorem claim_C9_short_total (parts : List String)
    (htag : parts.head? = some RESP_SENSORS)
    (hv1 : ∀ s, parts.get? 1 = some s → s = "fb07" ∨ (hex_to_dec s).isSome)
    (hv3 : ∀ s, parts.get? 3 = some s → s = "fb07" ∨ (hex_to_dec s).isSome)
    (hv5 : ∀ s, parts.get? 5 = some s → s = "fb07" ∨ (hex_to_dec s).isSome)
    (hv7 : ∀ s, parts.get? 7 = some s → s = "fb07" ∨ (hex_to_dec s).isSome)
    (hv8 : ∀ s, parts.get? 8 = some s → s = "fb07" ∨ (hex_to_dec s).isSome) :
    ∃ r, get_sensors parts = .ok r ∧
      (parts.length ≤ 1 → r.temp_supply = none) ∧
      (parts.length ≤ 3 → r.temp_room = none) ∧
      (parts.length ≤ 5 → r.temp_outdoor = none) ∧
      (parts.length ≤ 7 → r.temp_water = none) ∧
      (parts.length ≤ 8 → r.power_consumption = none) := by
  obtain ⟨o1, ho1, hn1⟩ := parseAt_temp_ok hv1
  obtain ⟨o2, ho2, hn2⟩ := parseAt_plain_ok hv3
  obtain ⟨o3, ho3, hn3⟩ := parseAt_temp_ok hv5
  obtain ⟨o4, ho4, hn4⟩ := parseAt_plain_ok hv7
  obtain ⟨o5, ho5, hn5⟩ := parseAt_plain_ok hv8
  cases parts with
  | nil => simp at htag
  | cons tag rest =>
    simp only [List.head?, Option.some_inj] at htag
    subst htag
    have herr : errorReason RESP_SENSORS = none := by decide
    refine ⟨⟨o1, o2, o3, o4, o5⟩, ?_, ?_, ?_, ?_, ?_, ?_⟩
    · rw [get_sensors]
      simp only [check_error, herr, Bind.bind, Except.bind]
      simp only [decodeSensors, ne_eq, not_true_eq_false, if_false]
      rw [ho1]
      simp only [Bind.bind, Except.bind]
      rw [ho2, ho3, ho4, ho5]
    · intro hl; exact hn1 (List.get?_eq_none.mpr hl)
    · intro hl; exact hn2 (List.get?_eq_none.mpr hl)
    · intro hl; exact hn3 (List.get?_eq_none.mpr hl)
    · intro hl; exact hn4 (List.get?_eq_none.mpr hl)
    · intro hl; exact hn5 (List.get?_eq_none.mpr hl)

/-- C9 witness: the two-token response `VSens_a` decodes successfully,
with the supply temperature read and every other channel absent. -/
theorem claim_C9_witness :
    ∃ r, get_sensors ["VSens", "a"] = .ok r ∧
      (["VSens", "a"].length ≤ 1 → r.temp_supply = none) ∧
      (["VSens", "a"].length ≤ 3 → r.temp_room = none) ∧
      (["VSens", "a"].length ≤ 5 → r.temp_outdoor = none) ∧
      (["VSens", "a"].length ≤ 7 → r.temp_water = none) ∧
      (["VSens", "a"].length ≤ 8 → r.power_consumption = none) :=
  claim_C9_short_total ["VSens", "a"] rfl
    (by intro s hs; simp at hs; subst hs; decide)
    (by intro s hs; simp at hs) (by intro s hs; simp at hs)
    (by intro s hs; simp at hs) (by intro s hs; simp at hs)

/-- Signed 16-bit reading of an unsigned word, as computed by
`_hex_to_dec_sign`. -/
def signed16 (v : Nat) : Int :=
  if v &&& 0x8000 ≠ 0 then (v : Int) - 0x10000 else (v : Int)

theorem hex_to_dec_sign_decToHexNat (v : Nat) :
    hex_to_dec_sign (decToHexNat v) = some (signed16 v) := by
  rw [hex_to_dec_sign, hex_to_dec_decToHexNat]
  rfl

theorem decToHexNat_ne_sentinel {v : Nat} (h : v ≠ NO_DATA_VALUE) :
    decToHexNat v ≠ "fb07" := by
  intro heq
  have h1 := hex_to_dec_decToHexNat v
  rw [heq] at h1
  have h2 : hex_to_dec "fb07" = some NO_DATA_VALUE := by decide
  rw [h2] at h1
  exact h (Option.some_inj.mp h1).symm

theorem parse_temp_sensor_decToHexNat {v : Nat} (h : v ≠ NO_DATA_VALUE) :
    parse_temp_sensor (decToHexNat v) = .ok (some ((signed16 v : ℚ) / 10)) := by
  rw [parse_temp_sensor, if_neg (decToHexNat_ne_sentinel h),
    hex_to_dec_sign_decToHexNat]

theorem parse_sensor_decToHexNat {v : Nat} (h : v ≠ NO_DATA_VALUE) :
    parse_sensor (decToHexNat v) = .ok (some (v : ℚ)) := by
  rw [parse_sensor, if_neg (decToHexNat_ne_sentinel h), hex_to_dec_decToHexNat]

/-- C4 counterexample: in the response
`VSens_0_0_ffff_0_0_0_ffff_0` **both** `temp_room` (4th token) and
`temp_water` (8th token) decode as plain unsigned hex — `0xffff ↦
65535` — where the signed-hex/10 reading would give `-1/10`; so it is
not the case that exactly one of the four temperature-like tokens
decodes as plain unsigned hex. -/
theorem claim_C4_counterexample :
    get_sensors ["VSens", "0", "0", "ffff", "0", "0", "0", "ffff", "0"] =
      .ok { temp_supply := some 0, temp_room := some 65535, temp_outdoor := some 0,
            temp_water := some 65535, power_consumption := some 0 } ∧
    (65535 : ℚ) ≠ (-1 : ℚ) / 10 := by
  have hts : parse_temp_sensor "0" = .ok (some 0) := by
    rw [parse_temp_sensor, if_neg (by decide)]
    have h0 : hex_to_dec_sign "0" = some 0 := by decide
    rw [h0]
    norm_num
  have hp0 : parse_sensor "0" = .ok (some 0) := by
    rw [parse_sensor, if_neg (by decide)]
    have h0 : hex_to_dec "0" = some 0 := by decide
    rw [h0]
    norm_num
  have hpf : parse_sensor "ffff" = .ok (some 65535) := by
    rw [parse_sensor, if_neg (by decide)]
    have h0 : hex_to_dec "ffff" = some 65535 := by decide
    rw [h0]
    norm_num
  constructor
  · have herr : errorReason "VSens" = none := by decide
    rw [get_sensors]
    simp only [check_error, herr, Bind.bind, Except.bind]
    simp only [decodeSensors, RESP_SENSORS, ne_eq, not_true_eq_false, if_false]
    simp only [parseAt, List.get?]
    rw [hts]
    simp only [Bind.bind, Except.bind]
    rw [hpf]
    simp [hp0]
  · norm_num

/-- C4 as amended: of the four temperature-like channels, `temp_supply`
and `temp_outdoor` decode as signed 16-bit hex divided by 10, while
`temp_room` and `temp_water` decode as plain unsigned hex (two
channels, not exactly one); `power_consumption` decodes as plain
unsigned hex. -/
theorem claim_C4_amended (a b c d e : Nat) (t2 t4 t6 : String)
    (ha : a ≠ NO_DATA_VALUE) (hb : b ≠ NO_DATA_VALUE) (hc : c ≠ NO_DATA_VALUE)
    (hd : d ≠ NO_DATA_VALUE) (he : e ≠ NO_DATA_VALUE) :
    get_sensors ["VSens", decToHexNat a, t2, decToHexNat b, t4, decToHexNat c, t6,
        decToHexNat d, decToHexNat e] =
      .ok { temp_supply := some ((signed16 a : ℚ) / 10)
            temp_room := some (b : ℚ)
            temp_outdoor := some ((signed16 c : ℚ) / 10)
            temp_water := some (d : ℚ)
            power_consumption := some (e : ℚ) } := by
  have herr : errorReason "VSens" = none := by decide
  rw [get_sensors]
  simp only [check_error, herr, Bind.bind, Except.bind]
  simp only [decodeSensors, RESP_SENSORS, ne_eq, not_true_eq_false, if_false]
  have h1 : parseAt ["VSens", decToHexNat a, t2, decToHexNat b, t4, decToHexNat c, t6,
      decToHexNat d, decToHexNat e] 1 parse_temp_sensor =
      .ok (some ((signed16 a : ℚ) / 10)) := by
    simp only [parseAt, List.get?]
    exact parse_temp_sensor_decToHexNat ha
  have h2 : parseAt ["VSens", decToHexNat a, t2, decToHexNat b, t4, decToHexNat c, t6,
      decToHexNat d, decToHexNat e] 3 parse_sensor = .ok (some (b : ℚ)) := by
    simp only [parseAt, List.get?]
    exact parse_sensor_decToHexNat hb
  have h3 : parseAt ["VSens", decToHexNat a, t2, decToHexNat b, t4, decToHexNat c, t6,
      decToHexNat d, decToHexNat e] 5 parse_temp_sensor =
      .ok (some ((signed16 c : ℚ) / 10)) := by
    simp only [parseAt, List.get?]
    exact parse_temp_sensor_decToHexNat hc
  have h4 : parseAt ["VSens", decToHexNat a, t2, decToHexNat b, t4, decToHexNat c, t6,
      decToHexNat d, decToHexNat e] 7 parse_sensor = .ok (some (d : ℚ)) := by
    simp only [parseAt, List.get?]
    exact parse_sensor_decToHexNat hd
  have h5 : parseAt ["VSens", decToHexNat a, t2, decToHexNat b, t4, decToHexNat c, t6,
      decToHexNat d, decToHexNat e] 8 parse_sensor = .ok (some (e : ℚ)) := by
    simp only [parseAt, List.get?]
    exact parse_sensor_decToHexNat he
  rw [h1]
  simp only [Bind.bind, Except.bind]
  rw [h2, h3, h4, h5]

/-- C4 amended witness: a concrete response — supply `0xffd8 ↦ -4`
(i.e. `-40/10`), room `0x19 ↦ 25`, outdoor `0x64 ↦ 10` (`100/10`),
water `0x1e ↦ 30`, power `0x1f4 ↦ 500`. -/
theorem claim_C4_witness :
    get_sensors ["VSens", decToHexNat 65496, "0", decToHexNat 25, "0",
        decToHexNat 100, "0", decToHexNat 30, decToHexNat 500] =
      .ok { temp_supply := some ((signed16 65496 : ℚ) / 10)
            temp_room := some ((25 : Nat) : ℚ)
            temp_outdoor := some ((signed16 100 : ℚ) / 10)
            temp_water := some ((30 : Nat) : ℚ)
            power_consumption := some ((500 : Nat) : ℚ) } :=
  claim_C4_amended 65496 25 100 30 500 "0" "0" "0"
    (by decide) (by decide) (by decide) (by decide) (by decide)

/-- C5 counterexample: with the client's default capability bounds
(`temp_min = 15`), `set_temperature(14)` violates `temp_min ≤ v` yet
the request line `VWTmp_1_e` is built successfully — the command would
be transmitted to the device, contradicting the claim that it fails
without transmitting. -/
theorem claim_C5_counterexample :
    set_temperature_request (initClient "host" 1560 1 5) 14 = .ok "VWTmp_1_e" ∧
    14 < ((initClient "host" 1560 1 5).temp_min : Int) := by
  constructor
  · decide
  · decide

/-- C5 as amended: neither `set_temperature` nor `set_fan_speed`
compares its argument against the discovered capability bounds; for any
client whose password is hex-encodable, both build and transmit the
command for every integer in `0..65535` (in particular for values
outside `temp_min..temp_max` / `speed_min..speed_max`), and both fail
without transmitting exactly for integers outside `0..65535`, via
`_dec_to_hex`'s range error. -/
theorem claim_C5_amended (c : Client) (v : Int)
    (hpw0 : 0 ≤ c.password) (hpw1 : c.password ≤ 65535) :
    (0 ≤ v → v ≤ 65535 →
      set_temperature_request c v =
        .ok (String.intercalate DELIMITER
          [REQ_SET_TEMP, decToHexNat c.password.toNat, decToHexNat v.toNat]) ∧
      set_fan_speed_request c v =
        .ok (String.intercalate DELIMITER
          [REQ_SET_FAN_SPEED, decToHexNat c.password.toNat, decToHexNat v.toNat])) ∧
    (v < 0 ∨ 65535 < v →
      set_temperature_request c v =
        .error (.valueError "Value must be a positive integer <= 65535") ∧
      set_fan_speed_request c v =
        .error (.valueError "Value must be a positive integer <= 65535")) := by
  have hpw : dec_to_hex c.password = some (decToHexNat c.password.toNat) := by
    rw [dec_to_hex, if_neg (by omega)]
  constructor
  · intro h0 h1
    have hv : dec_to_hex v = some (decToHexNat v.toNat) := by
      rw [dec_to_hex, if_neg (by omega)]
    constructor <;>
      simp [set_temperature_request, set_fan_speed_request, build_request, hpw, hv]
  · intro h
    have hv : dec_to_hex v = none := by rw [dec_to_hex, if_pos h]
    constructor <;>
      simp [set_temperature_request, set_fan_speed_request, build_request, hpw, hv]

/-- C5 amended witness: with default bounds (`temp_min = 15`,
`speed_max = 10`), the out-of-bounds values 14 (below `temp_min`) and
12 (above `speed_max`) are still transmitted, while 70000 fails the hex
range check without transmission. -/
theorem claim_C5_witness :
    set_temperature_request (initClient "host" 1560 1 5) 14 =
      .ok (String.intercalate DELIMITER
        [REQ_SET_TEMP, decToHexNat 1, decToHexNat 14]) ∧
    set_fan_speed_request (initClient "host" 1560 1 5) 12 =
      .ok (String.intercalate DELIMITER
        [REQ_SET_FAN_SPEED, decToHexNat 1, decToHexNat 12]) ∧
    set_temperature_request (initClient "host" 1560 1 5) 70000 =
      .error (.valueError "Value must be a positive integer <= 65535") :=
  ⟨((claim_C5_amended (initClient "host" 1560 1 5) 14 (by decide) (by decide)).1
      (by decide) (by decide)).1,
   ((claim_C5_amended (initClient "host" 1560 1 5) 12 (by decide) (by decide)).1
      (by decide) (by decide)).2,
   ((claim_C5_amended (initClient "host" 1560 1 5) 70000 (by decide) (by decide)).2
      (by decide)).1⟩

theorem tickCore_connected_mono (s : CoordState) (env : TickEnv)
    (hc : s.connected = true) : (tickCore s env).1.connected = true := by
  simp only [tickCore, hc, if_true]
  by_cases hp : s.propertiesLoaded = true
  · simp only [hp, if_true]
    rcases h1 : env.stateRead >>= get_state with e | st
    · simp [h1, hc]
    · rcases h2 : env.sensorsRead >>= get_sensors with e2 | sr <;> simp [h1, h2, hc]
  · simp only [Bool.not_eq_true] at hp
    simp only [hp, Bool.false_eq_true, if_false]
    rcases h0 : env.propsRead with e | parts
    · simp [h0, hc]
    · simp only [h0]
      rcases hg : get_properties s.client parts with ⟨c1, r1⟩
      rcases r1 with e1 | u
      · simp [hg, hc]
      · simp only [hg]
        rcases h1 : env.stateRead >>= get_state with e | st
        · simp [h1, hc]
        · rcases h2 : env.sensorsRead >>= get_sensors with e2 | sr <;> simp [h1, h2, hc]

theorem tickCore_props_mono (s : CoordState) (env : TickEnv)
    (hp : s.propertiesLoaded = true) : (tickCore s env).1.propertiesLoaded = true := by
  simp only [tickCore]
  by_cases hc : s.connected = true
  · simp only [hc, if_true, hp]
    rcases h1 : env.stateRead >>= get_state with e | st
    · simp [h1, hp]
    · rcases h2 : env.sensorsRead >>= get_sensors with e2 | sr <;> simp [h1, h2, hp]
  · simp only [Bool.not_eq_true] at hc
    simp only [hc, Bool.false_eq_true, if_false]
    rcases hcr : env.connectResult with _ | e
    · simp only [hcr, hp, if_true]
      rcases h1 : env.stateRead >>= get_state with e | st
      · simp [h1, hp]
      · rcases h2 : env.sensorsRead >>= get_sensors with e2 | sr <;> simp [h1, h2, hp]
    · simp [hcr, hp]

/-- C1 counterexample: a tick whose state read answers with the device
error tag `VEPas` — a protocol failure per the claim — nevertheless
closes the session and resets to NeedsProperties, because the raised
`PermissionError` is an `OSError` subclass and is caught by the
coordinator's transport handler; the claim says this tick should leave
the session open and the state unreset. -/
theorem claim_C1_counterexample :
    (tick { client := initClient "host" 1560 1 5, connected := true, propertiesLoaded := true }
        { connectResult := none, propsRead := .ok [], stateRead := .ok ["VEPas"],
          sensorsRead := .ok [] }).2 =
      .error (.permissionError "Wrong password" "VEPas") ∧
    (tick { client := initClient "host" 1560 1 5, connected := true, propertiesLoaded := true }
        { connectResult := none, propsRead := .ok [], stateRead := .ok ["VEPas"],
          sensorsRead := .ok [] }).1.connected = false ∧
    (tick { client := initClient "host" 1560 1 5, connected := true, propertiesLoaded := true }
        { connectResult := none, propsRead := .ok [], stateRead := .ok ["VEPas"],
          sensorsRead := .ok [] }).1.propertiesLoaded = false := by
  refine ⟨?_, ?_, ?_⟩ <;> decide

/-- C1 as amended: failed ticks partition by the Python class of the
raised exception, not by transport/protocol kind — every failure caught
by `except (ConnectionError, OSError, TimeoutError)` (connect failure,
response timeout, empty response, **and** device error tags, whose
`PermissionError` is an `OSError` subclass) closes the session and
resets to NeedsProperties; only failures outside those classes (the
`ValueError` of an unexpected leading tag) leave the session open and
do not reset the per-connection state. -/
theorem claim_C1_amended (s : CoordState) (env : TickEnv) (e : PyError)
    (he : (tick s env).2 = .error e) :
    (caughtByConnHandler e = true →
      (tick s env).1.connected = false ∧ (tick s env).1.propertiesLoaded = false) ∧
    (caughtByConnHandler e = false →
      (s.connected = true → (tick s env).1.connected = true) ∧
      (s.propertiesLoaded = true → (tick s env).1.propertiesLoaded = true)) := by
  rcases htc : tickCore s env with ⟨s1, r⟩
  rcases r with e1 | snap
  · by_cases hcaught : caughtByConnHandler e1 = true
    · have htick : tick s env =
          ({ s1 with connected := false, propertiesLoaded := false }, .error e1) := by
        rw [tick, htc]
        simp [hcaught]
      rw [htick] at he ⊢
      simp only [Except.error.injEq] at he
      subst he
      exact ⟨fun _ => ⟨rfl, rfl⟩, fun hfalse => absurd hcaught (by simp [hfalse])⟩
    · have htick : tick s env = (s1, .error e1) := by
        rw [tick, htc]
        simp [hcaught]
      rw [htick] at he ⊢
      simp only [Except.error.injEq] at he
      subst he
      refine ⟨fun htrue => absurd htrue hcaught, fun _ => ⟨fun hc => ?_, fun hp => ?_⟩⟩
      · have := tickCore_connected_mono s env hc
        rw [htc] at this
        exact this
      · have := tickCore_props_mono s env hp
        rw [htc] at this
        exact this
  · have htick : tick s env = (s1, .ok snap) := by rw [tick, htc]
    rw [htick] at he
    exact absurd he (by simp)

/-- C1 amended witness: a tick failing with the `ValueError` of an
unexpected leading state tag leaves an established session open and
keeps the properties loaded. -/
theorem claim_C1_witness :
    (tick { client := initClient "host" 1560 1 5, connected := true, propertiesLoaded := true }
        { connectResult := none, propsRead := .ok [], stateRead := .ok ["bad"],
          sensorsRead := .ok [] }).1.connected = true ∧
    (tick { client := initClient "host" 1560 1 5, connected := true, propertiesLoaded := true }
        { connectResult := none, propsRead := .ok [], stateRead := .ok ["bad"],
          sensorsRead := .ok [] }).1.propertiesLoaded = true := by
  have h := claim_C1_amended
    { client := initClient "host" 1560 1 5, connected := true, propertiesLoaded := true }
    { connectResult := none, propsRead := .ok [], stateRead := .ok ["bad"],
      sensorsRead := .ok [] }
    (.valueError "Unexpected state response: bad") (by decide)
  exact ⟨(h.2 (by decide)).1 rfl, (h.2 (by decide)).2 rfl⟩

end Breezart
